import Mathlib

/-!
Verification development for the geo-checker repository.

The Go sources are embedded shallowly:
* Go strings are modelled as `List Char` (rune sequences); string literals of
  the source appear through `str`.
* Go `float64` arithmetic of the scorer is modelled over `ℚ` (exact rational
  arithmetic); `int(...)` truncation and `math.Round` are modelled explicitly.
* `map[string]string` is modelled as an association list.
* The LLM provider behind the `llm.Provider` interface is modelled as an
  injected function value; prompts are modelled as a structured value because
  their text never influences the core control flow.
-/

namespace GeoChecker

/-- Go strings as rune lists. -/
abbrev Str := List Char

/-- Embed a Lean string literal as a rune list. -/
def str (s : String) : Str := s.data

/-! ### Go standard-library string primitives -/

/-- `unicode.IsSpace` restricted to the ASCII space characters
(the analysed content in the claims is ASCII). -/
def goIsSpace (c : Char) : Bool :=
  c = ' ' || c = '\t' || c = '\n' || c = '\r' || c = '\x0b' || c = '\x0c'

/-- Auxiliary loop for `strings.Fields`: accumulates the current word
(in reverse) and splits on whitespace runs. -/
def goFieldsAux : Str → Str → List Str
  | [], acc => if acc = [] then [] else [acc.reverse]
  | c :: rest, acc =>
    if goIsSpace c then
      if acc = [] then goFieldsAux rest []
      else acc.reverse :: goFieldsAux rest []
    else goFieldsAux rest (c :: acc)

/-- `strings.Fields`: split around runs of whitespace, dropping empties. -/
def goFields (s : Str) : List Str := goFieldsAux s []

/-- `strings.ToLower` (ASCII case mapping suffices for the claims). -/
def goToLower (s : Str) : Str := s.map Char.toLower

/-- `strings.HasPrefix`. -/
def goHasPrefix (s pre : Str) : Bool := pre.isPrefixOf s

/-- `strings.HasSuffix`. -/
def goHasSuffix (s suf : Str) : Bool := suf.reverse.isPrefixOf s.reverse

/-- `strings.Split s sep` for non-empty `sep`: split around every
non-overlapping leftmost occurrence of `sep`.  Fuel-driven loop; the fuel
`s.length + 1` always suffices because each step consumes input. -/
def goSplitFuel (sep : Str) : Nat → Str → Str → List Str
  | 0, acc, s => [acc.reverse ++ s]
  | _ + 1, acc, [] => [acc.reverse]
  | fuel + 1, acc, c :: rest =>
    if goHasPrefix (c :: rest) sep then
      acc.reverse :: goSplitFuel sep fuel [] ((c :: rest).drop sep.length)
    else
      goSplitFuel sep fuel (c :: acc) rest

/-- `strings.Split` (non-empty separator). -/
def goSplit (s sep : Str) : List Str := goSplitFuel sep (s.length + 1) [] s

/-- `strings.Count s pat` for non-empty `pat`: number of non-overlapping
occurrences, scanning left to right.  Fuel-driven as above. -/
def goCountFuel (pat : Str) : Nat → Str → Nat
  | 0, _ => 0
  | _ + 1, [] => 0
  | fuel + 1, c :: rest =>
    if goHasPrefix (c :: rest) pat then
      1 + goCountFuel pat fuel ((c :: rest).drop pat.length)
    else
      goCountFuel pat fuel rest

/-- `strings.Count` (non-empty pattern). -/
def goCount (s pat : Str) : Nat := goCountFuel pat (s.length + 1) s

/-- `strings.Contains`. -/
def goContains (s pat : Str) : Bool := 0 < goCount s pat

/-- `strings.ContainsRune`. -/
def goContainsRune (s : Str) (c : Char) : Bool := s.contains c

/-- Go `int(x)` conversion of a float: truncation toward zero. -/
def goTrunc (q : ℚ) : ℤ := if 0 ≤ q then ⌊q⌋ else ⌈q⌉

/-- Go `math.Round`: round half away from zero (result as an integer;
the source immediately converts the integral float with `int(...)`). -/
def mathRound (q : ℚ) : ℤ := if 0 ≤ q then ⌊q + 1/2⌋ else ⌈q - 1/2⌉

/-- Go `min` for ints (`scorer.min`). -/
def goMin (a b : ℤ) : ℤ := if a < b then a else b

/-! ### Splitting on sentence delimiters

`regexp.MustCompile([.!?]+).Split(content, -1)` splits the content around
maximal runs of `.`, `!`, `?`. -/

/-- Is a sentence-delimiter character (`[.!?]`). -/
def isSentenceDelim (c : Char) : Bool := c = '.' || c = '!' || c = '?'

/-- Split around maximal runs of characters satisfying `p`, keeping empty
pieces (the semantics of `regexp.Split` with a `[...]+` pattern).
Fuel-driven; each step consumes input, so `s.length + 1` always suffices. -/
def splitRunsFuel (p : Char → Bool) : Nat → Str → Str → List Str
  | 0, s, acc => [acc.reverse ++ s]
  | _ + 1, [], acc => [acc.reverse]
  | fuel + 1, c :: rest, acc =>
    if p c then
      acc.reverse :: splitRunsFuel p fuel (rest.dropWhile p) []
    else
      splitRunsFuel p fuel rest (c :: acc)

/-- `regexp.MustCompile([.!?]+).Split(content, -1)`. -/
def splitSentences (s : Str) : List Str :=
  splitRunsFuel isSentenceDelim (s.length + 1) s []

/-! ### Scorer data model (`pkg/scorer`, `internal/webpage`) -/

/-- `webpage.Heading`. -/
structure Heading where
  level : ℤ
  text : Str
deriving DecidableEq, Repr

/-- `webpage.PageData` (the `URL` field is not consulted by the scorer). -/
structure PageData where
  url : String
  title : Str
  content : Str
  metaTags : List (Str × Str)
  headings : List Heading
deriving DecidableEq, Repr

/-- Lookup in the `MetaTags` map (association list model of
`map[string]string`). -/
def PageData.metaLookup (pd : PageData) (key : Str) : Option Str :=
  (pd.metaTags.find? (fun kv => kv.1 = key)).map Prod.snd

/-- `scorer.GEOWeights`. -/
structure GEOWeights where
  contentStructure : ℚ
  semanticClarity : ℚ
  contextRichness : ℚ
  authoritySignals : ℚ
  accessibility : ℚ
deriving DecidableEq, Repr

/-- `scorer.ScoreDetail`. -/
structure ScoreDetail where
  score : ℤ
  maxScore : ℤ
  percentage : ℚ
  issues : List String
  positives : List String
deriving DecidableEq, Repr

/-- `scorer.ScoreBreakdown`. -/
structure ScoreBreakdown where
  contentStructure : ScoreDetail
  semanticClarity : ScoreDetail
  contextRichness : ScoreDetail
  authoritySignals : ScoreDetail
  accessibility : ScoreDetail
deriving DecidableEq, Repr

/-- `scorer.GEOScore` (the `Metadata` map is modelled by its four entries). -/
structure GEOScore where
  overall : ℤ
  breakdown : ScoreBreakdown
  suggestions : List String
  strengths : List String
  weaknesses : List String
  metaContentLength : ℕ
  metaWordCount : ℕ
  metaHeadingCount : ℕ
  metaMetaTagsCount : ℕ
deriving DecidableEq, Repr

/-- `scorer.NewLocalScorer`: the static weight configuration. -/
def newLocalScorerWeights : GEOWeights :=
  { contentStructure := 0.25
    semanticClarity := 0.25
    contextRichness := 0.20
    authoritySignals := 0.15
    accessibility := 0.15 }

/-! ### Per-dimension sub-evaluators -/

/-- Hierarchy-flow loop of `evaluateHeadingHierarchy`: adjacent headings may
not skip more than one level downwards. -/
def hierarchyGood : List Heading → Bool
  | [] => true
  | [_] => true
  | a :: b :: rest => (b.level ≤ a.level + 1) && hierarchyGood (b :: rest)

/-- `scorer.evaluateHeadingHierarchy`. -/
def evaluateHeadingHierarchy (headings : List Heading) : ℤ :=
  if headings.length = 0 then 0
  else
    let score : ℤ := 10
    let hasH1 := headings.any (fun h => h.level = 1)
    let score := if hasH1 then score + 10 else score
    let score :=
      if 1 < headings.length then
        if hierarchyGood headings then score + 10 else score
      else score
    goMin score 30

/-- `scorer.evaluateContentOrganization`. -/
def evaluateContentOrganization (content : Str) : ℤ :=
  let sections := goSplit content (str "\n\n")
  if sections.length < 2 then 5
  else
    let score : ℤ := 10
    let score := if 3 ≤ sections.length then score + 10 else score
    let score := if 5 ≤ sections.length then score + 5 else score
    goMin score 25

/-- `scorer.evaluateParagraphStructure`. -/
def evaluateParagraphStructure (content : Str) : ℤ :=
  let paragraphs := goSplit content (str "\n\n")
  let goodParagraphs :=
    (paragraphs.filter (fun para =>
      let words := (goFields para).length
      20 ≤ words ∧ words ≤ 150)).length
  if 0 < paragraphs.length then
    let ratio : ℚ := (goodParagraphs : ℚ) / (paragraphs.length : ℚ)
    goTrunc (ratio * 25)
  else 0

/-- The `listIndicators` literal of `scorer.evaluateListUsage`. -/
def listIndicators : List Str :=
  [str "•", str "-", str "*", str "1.", str "2.", str "3.",
   str "①", str "②", str "③"]

/-- `scorer.evaluateListUsage`. -/
def evaluateListUsage (content : Str) : ℤ :=
  let listCount := (listIndicators.map (fun ind => goCount content ind)).sum
  if listCount = 0 then 5
  else if listCount ≤ 3 then 10
  else if listCount ≤ 8 then 20
  else 20

/-- The vowels of `scorer.countSyllables`. -/
def vowels : Str := str "aeiouy"

/-- Rune loop of `scorer.countSyllables`: counts non-vowel→vowel transitions,
threading `prevWasVowel`. -/
def countSyllablesLoop : Str → Bool → ℤ
  | [], _ => 0
  | c :: rest, prevWasVowel =>
    let isVowel := goContainsRune vowels c
    (if isVowel && !prevWasVowel then 1 else 0) + countSyllablesLoop rest isVowel

/-- `scorer.countSyllables`. -/
def countSyllables (word : Str) : ℤ :=
  let word := goToLower word
  let syllables := countSyllablesLoop word false
  let syllables :=
    if goHasSuffix word (str "e") ∧ 1 < syllables then syllables - 1
    else syllables
  if syllables = 0 then 1 else syllables

/-- `scorer.calculateAvgWordsPerSentence`. -/
def calculateAvgWordsPerSentence (content : Str) : ℚ :=
  let sentences := splitSentences content
  let words := goFields content
  if sentences.length = 0 then 0
  else (words.length : ℚ) / (sentences.length : ℚ)

/-- `scorer.calculateAvgSyllablesPerWord`. -/
def calculateAvgSyllablesPerWord (words : List Str) : ℚ :=
  let totalSyllables := (words.map countSyllables).sum
  if words.length = 0 then 0
  else (totalSyllables : ℚ) / (words.length : ℚ)

/-- `scorer.evaluateReadability`. -/
def evaluateReadability (content : Str) : ℤ :=
  let words := goFields content
  if words.length = 0 then 0
  else
    let avgWordsPerSentence := calculateAvgWordsPerSentence content
    let avgSyllablesPerWord := calculateAvgSyllablesPerWord words
    let score : ℤ := 20
    let score :=
      if 10 ≤ avgWordsPerSentence ∧ avgWordsPerSentence ≤ 25 then score + 10
      else score
    let score :=
      if 1 ≤ avgSyllablesPerWord ∧ avgSyllablesPerWord ≤ 2.5 then score + 10
      else score
    goMin score 40

/-- `scorer.evaluateTerminologyConsistency`.  The word-count map is realised
as the multiset of occurrence counts of the distinct words longer than four
runes; the totalling loop mirrors the source's nested `count >= 3` checks. -/
def evaluateTerminologyConsistency (content : Str) : ℤ :=
  let words := goFields (goToLower content)
  let longWords := words.filter (fun w => 4 < w.length)
  let counts := longWords.dedup.map (fun w => longWords.count w)
  let totals :=
    counts.foldl
      (fun (p : ℕ × ℕ) count =>
        if 3 ≤ count then
          (p.1 + 1, if 3 ≤ count then p.2 + 1 else p.2)
        else p)
      (0, 0)
  if totals.1 = 0 then 15
  else
    let ratio : ℚ := (totals.2 : ℚ) / (totals.1 : ℚ)
    goTrunc (ratio * 30)

/-- The `definitionPatterns` literal of `scorer.evaluateDefinitionClarity`. -/
def definitionPatterns : List Str :=
  [str " is ", str " are ", str " means ", str " refers to ", str " defined as ",
   str "definition", str "meaning", str "explanation", str "concept"]

/-- `scorer.evaluateDefinitionClarity`. -/
def evaluateDefinitionClarity (content : Str) : ℤ :=
  let definitionCount :=
    (definitionPatterns.map (fun pat => goCount (goToLower content) pat)).sum
  if definitionCount = 0 then 10
  else if definitionCount ≤ 5 then 20
  else if definitionCount ≤ 10 then 30
  else 30

/-- `scorer.evaluateContentDepth`. -/
def evaluateContentDepth (content : Str) : ℤ :=
  let wordCount := (goFields content).length
  if wordCount < 100 then 5
  else if wordCount < 300 then 15
  else if wordCount < 800 then 30
  else if wordCount < 1500 then 40
  else 35

/-- The `examplePatterns` literal of `scorer.evaluateExamplesAndSpecifics`. -/
def examplePatterns : List Str :=
  [str "example", str "for instance", str "such as", str "including", str "like",
   str "specifically", str "particular", str "namely", str "e.g.", str "i.e."]

/-- `scorer.evaluateExamplesAndSpecifics`. -/
def evaluateExamplesAndSpecifics (content : Str) : ℤ :=
  let exampleCount :=
    (examplePatterns.map (fun pat => goCount (goToLower content) pat)).sum
  if exampleCount = 0 then 5
  else if exampleCount ≤ 3 then 15
  else if exampleCount ≤ 8 then 25
  else if exampleCount ≤ 15 then 35
  else 30

/-- The `backgroundPatterns` literal of `scorer.evaluateBackgroundInfo`. -/
def backgroundPatterns : List Str :=
  [str "background", str "context", str "history", str "overview",
   str "introduction", str "originally", str "previously", str "traditionally",
   str "historically"]

/-- `scorer.evaluateBackgroundInfo`. -/
def evaluateBackgroundInfo (content : Str) : ℤ :=
  let backgroundCount :=
    (backgroundPatterns.map (fun pat => goCount (goToLower content) pat)).sum
  if backgroundCount = 0 then 5
  else if backgroundCount ≤ 3 then 15
  else if backgroundCount ≤ 6 then 25
  else 25

/-- The `citationPatterns` literal of `scorer.evaluateCitations`. -/
def citationPatterns : List Str :=
  [str "according to", str "research shows", str "study found", str "source:",
   str "reference", str "cited", str "published", str "journal", str "doi:",
   str "http://", str "https://", str "www.", str ".com", str ".org", str ".edu"]

/-- `scorer.evaluateCitations`. -/
def evaluateCitations (content : Str) : ℤ :=
  let citationCount :=
    (citationPatterns.map (fun pat => goCount (goToLower content) pat)).sum
  if citationCount = 0 then 5
  else if citationCount ≤ 3 then 15
  else if citationCount ≤ 8 then 25
  else if citationCount ≤ 15 then 40
  else 35

/-- The `expertisePatterns` literal of `scorer.evaluateExpertiseIndicators`. -/
def expertisePatterns : List Str :=
  [str "expert", str "professional", str "certified", str "experienced",
   str "qualified", str "research", str "analysis", str "methodology",
   str "findings", str "conclusion", str "peer-reviewed", str "academic",
   str "scholarly", str "evidence-based"]

/-- `scorer.evaluateExpertiseIndicators`. -/
def evaluateExpertiseIndicators (content : Str) : ℤ :=
  let expertiseCount :=
    (expertisePatterns.map (fun pat => goCount (goToLower content) pat)).sum
  if expertiseCount = 0 then 10
  else if expertiseCount ≤ 3 then 20
  else if expertiseCount ≤ 8 then 35
  else 35

/-- The `uncertaintyPatterns` literal of `scorer.evaluateFactualAccuracy`. -/
def uncertaintyPatterns : List Str :=
  [str "might", str "could", str "possibly", str "perhaps", str "maybe",
   str "seems", str "appears", str "likely", str "probably", str "allegedly",
   str "reportedly"]

/-- The `factualPatterns` literal of `scorer.evaluateFactualAccuracy`. -/
def factualPatterns : List Str :=
  [str "fact", str "proven", str "demonstrated", str "confirmed", str "verified",
   str "established", str "documented", str "evidence", str "data",
   str "statistics"]

/-- `scorer.evaluateFactualAccuracy`. -/
def evaluateFactualAccuracy (content : Str) : ℤ :=
  let contentLower := goToLower content
  let uncertaintyCount :=
    (uncertaintyPatterns.map (fun pat => goCount contentLower pat)).sum
  let factualCount :=
    (factualPatterns.map (fun pat => goCount contentLower pat)).sum
  let score : ℤ := 15
  let score := if uncertaintyCount < factualCount then score + 10 else score
  let score := if 3 ≤ factualCount then score + 5 else score
  goMin score 25

/-- `scorer.evaluateMetaInformation`. -/
def evaluateMetaInformation (pageData : PageData) : ℤ :=
  let score : ℤ := 0
  let score := if pageData.title ≠ [] then score + 10 else score
  let score :=
    match pageData.metaLookup (str "description") with
    | some desc => if 50 < desc.length then score + 10 else score
    | none => score
  let score :=
    match pageData.metaLookup (str "keywords") with
    | some keywords => if 10 < keywords.length then score + 5 else score
    | none => score
  let score := if 3 ≤ pageData.metaTags.length then score + 5 else score
  goMin score 30

/-- `scorer.evaluateParsingFriendliness`. -/
def evaluateParsingFriendliness (content : Str) : ℤ :=
  let score : ℤ := 15
  let sentences := goSplit content (str ".")
  let score := if 3 < sentences.length then score + 10 else score
  let score := if goContains content (str "\n\n") then score + 10 else score
  goMin score 35

/-- `scorer.evaluateInformationDensity`. -/
def evaluateInformationDensity (content : Str) : ℤ :=
  let words := goFields content
  let sentences := goSplit content (str ".")
  if sentences.length = 0 then 0
  else
    let avgWordsPerSentence : ℚ := (words.length : ℚ) / (sentences.length : ℚ)
    if 10 ≤ avgWordsPerSentence ∧ avgWordsPerSentence ≤ 25 then 35
    else if 8 ≤ avgWordsPerSentence ∧ avgWordsPerSentence ≤ 30 then 25
    else if 5 ≤ avgWordsPerSentence ∧ avgWordsPerSentence ≤ 35 then 15
    else 10

/-! ### Dimension analyzers -/

/-- `scorer.analyzeContentStructure`. -/
def analyzeContentStructure (content : Str) (pageData : PageData) : ScoreDetail :=
  let detail : ScoreDetail :=
    { score := 0, maxScore := 100, percentage := 0, issues := [], positives := [] }
  let score : ℤ := 0
  let headingScore := evaluateHeadingHierarchy pageData.headings
  let score := score + headingScore
  let detail :=
    if 25 ≤ headingScore then
      { detail with positives := detail.positives ++ ["Good heading hierarchy structure"] }
    else
      { detail with issues := detail.issues ++ ["Improve heading hierarchy (H1 → H2 → H3)"] }
  let orgScore := evaluateContentOrganization content
  let score := score + orgScore
  let detail :=
    if 20 ≤ orgScore then
      { detail with positives := detail.positives ++ ["Well-organized content structure"] }
    else
      { detail with issues := detail.issues ++ ["Content could be better organized with clear sections"] }
  let paraScore := evaluateParagraphStructure content
  let score := score + paraScore
  let detail :=
    if 20 ≤ paraScore then
      { detail with positives := detail.positives ++ ["Good paragraph structure"] }
    else
      { detail with issues := detail.issues ++ ["Use shorter, more focused paragraphs"] }
  let listScore := evaluateListUsage content
  let score := score + listScore
  let detail :=
    if 15 ≤ listScore then
      { detail with positives := detail.positives ++ ["Effective use of lists for organization"] }
    else
      { detail with issues := detail.issues ++ ["Consider using lists to organize key points"] }
  { detail with
    score := score
    percentage := (score : ℚ) / (detail.maxScore : ℚ) * 100 }

/-- `scorer.analyzeSemanticClarity`. -/
def analyzeSemanticClarity (content : Str) : ScoreDetail :=
  let detail : ScoreDetail :=
    { score := 0, maxScore := 100, percentage := 0, issues := [], positives := [] }
  let score : ℤ := 0
  let readScore := evaluateReadability content
  let score := score + readScore
  let detail :=
    if 30 ≤ readScore then
      { detail with positives := detail.positives ++ ["Content is clear and readable"] }
    else
      { detail with issues := detail.issues ++ ["Simplify sentence structure for better readability"] }
  let termScore := evaluateTerminologyConsistency content
  let score := score + termScore
  let detail :=
    if 25 ≤ termScore then
      { detail with positives := detail.positives ++ ["Consistent terminology usage"] }
    else
      { detail with issues := detail.issues ++ ["Use consistent terminology throughout"] }
  let defScore := evaluateDefinitionClarity content
  let score := score + defScore
  let detail :=
    if 25 ≤ defScore then
      { detail with positives := detail.positives ++ ["Clear definitions and explanations"] }
    else
      { detail with issues := detail.issues ++ ["Define technical terms and concepts clearly"] }
  { detail with
    score := score
    percentage := (score : ℚ) / (detail.maxScore : ℚ) * 100 }

/-- `scorer.analyzeContextRichness`. -/
def analyzeContextRichness (content : Str) : ScoreDetail :=
  let detail : ScoreDetail :=
    { score := 0, maxScore := 100, percentage := 0, issues := [], positives := [] }
  let score : ℤ := 0
  let depthScore := evaluateContentDepth content
  let score := score + depthScore
  let detail :=
    if 30 ≤ depthScore then
      { detail with positives := detail.positives ++ ["Rich, detailed content"] }
    else
      { detail with issues := detail.issues ++ ["Add more detailed explanations and examples"] }
  let exampleScore := evaluateExamplesAndSpecifics content
  let score := score + exampleScore
  let detail :=
    if 25 ≤ exampleScore then
      { detail with positives := detail.positives ++ ["Good use of examples and specific details"] }
    else
      { detail with issues := detail.issues ++ ["Include more concrete examples and specific details"] }
  let backgroundScore := evaluateBackgroundInfo content
  let score := score + backgroundScore
  let detail :=
    if 20 ≤ backgroundScore then
      { detail with positives := detail.positives ++ ["Adequate background information provided"] }
    else
      { detail with issues := detail.issues ++ ["Provide more context and background information"] }
  { detail with
    score := score
    percentage := (score : ℚ) / (detail.maxScore : ℚ) * 100 }

/-- `scorer.analyzeAuthoritySignals`. -/
def analyzeAuthoritySignals (content : Str) : ScoreDetail :=
  let detail : ScoreDetail :=
    { score := 0, maxScore := 100, percentage := 0, issues := [], positives := [] }
  let score : ℤ := 0
  let citationScore := evaluateCitations content
  let score := score + citationScore
  let detail :=
    if 30 ≤ citationScore then
      { detail with positives := detail.positives ++ ["Good use of citations and references"] }
    else
      { detail with issues := detail.issues ++ ["Add more citations and credible references"] }
  let expertiseScore := evaluateExpertiseIndicators content
  let score := score + expertiseScore
  let detail :=
    if 25 ≤ expertiseScore then
      { detail with positives := detail.positives ++ ["Clear expertise and authority indicators"] }
    else
      { detail with issues := detail.issues ++ ["Include more expertise and credibility signals"] }
  let factScore := evaluateFactualAccuracy content
  let score := score + factScore
  let detail :=
    if 20 ≤ factScore then
      { detail with positives := detail.positives ++ ["Content appears factual and well-researched"] }
    else
      { detail with issues := detail.issues ++ ["Ensure factual accuracy and provide sources"] }
  { detail with
    score := score
    percentage := (score : ℚ) / (detail.maxScore : ℚ) * 100 }

/-- `scorer.analyzeAccessibility`. -/
def analyzeAccessibility (content : Str) (pageData : PageData) : ScoreDetail :=
  let detail : ScoreDetail :=
    { score := 0, maxScore := 100, percentage := 0, issues := [], positives := [] }
  let score : ℤ := 0
  let metaScore := evaluateMetaInformation pageData
  let score := score + metaScore
  let detail :=
    if 25 ≤ metaScore then
      { detail with positives := detail.positives ++ ["Good meta information for AI understanding"] }
    else
      { detail with issues := detail.issues ++ ["Add comprehensive meta descriptions and keywords"] }
  let parseScore := evaluateParsingFriendliness content
  let score := score + parseScore
  let detail :=
    if 25 ≤ parseScore then
      { detail with positives := detail.positives ++ ["Content is easy to parse and understand"] }
    else
      { detail with issues := detail.issues ++ ["Structure content for better machine readability"] }
  let densityScore := evaluateInformationDensity content
  let score := score + densityScore
  let detail :=
    if 25 ≤ densityScore then
      { detail with positives := detail.positives ++ ["Good information density"] }
    else
      { detail with issues := detail.issues ++ ["Balance information density - avoid being too sparse or dense"] }
  { detail with
    score := score
    percentage := (score : ℚ) / (detail.maxScore : ℚ) * 100 }

/-! ### Overall score and insights -/

/-- `scorer.calculateOverallScore`: weighted float sum followed by
`int(math.Round(...))`. -/
def calculateOverallScore (weights : GEOWeights) (breakdown : ScoreBreakdown) : ℤ :=
  let weightedScore : ℚ := 0
  let weightedScore :=
    weightedScore + (breakdown.contentStructure.score : ℚ) * weights.contentStructure
  let weightedScore :=
    weightedScore + (breakdown.semanticClarity.score : ℚ) * weights.semanticClarity
  let weightedScore :=
    weightedScore + (breakdown.contextRichness.score : ℚ) * weights.contextRichness
  let weightedScore :=
    weightedScore + (breakdown.authoritySignals.score : ℚ) * weights.authoritySignals
  let weightedScore :=
    weightedScore + (breakdown.accessibility.score : ℚ) * weights.accessibility
  mathRound weightedScore

/-- The loop body of `scorer.generateInsights`: one detail's positives are
appended to the strengths, its issues to the suggestions, and — when its
percentage is below 50 — its issues to the weaknesses. -/
def insightsStep (s : GEOScore) (detail : ScoreDetail) : GEOScore :=
  let s := { s with strengths := s.strengths ++ detail.positives }
  let s := { s with suggestions := s.suggestions ++ detail.issues }
  if detail.percentage < 50 then
    { s with weaknesses := s.weaknesses ++ detail.issues }
  else s

/-- `scorer.generateInsights`: folds the five details into the
suggestions/strengths/weaknesses sequences, then appends the
overall-score-banded generic suggestion. -/
def generateInsights (score : GEOScore) : GEOScore :=
  let allDetails :=
    [score.breakdown.contentStructure,
     score.breakdown.semanticClarity,
     score.breakdown.contextRichness,
     score.breakdown.authoritySignals,
     score.breakdown.accessibility]
  let score := allDetails.foldl insightsStep score
  if score.overall < 60 then
    { score with suggestions := score.suggestions ++
        ["Consider comprehensive content restructuring for better GEO optimization"] }
  else if score.overall < 80 then
    { score with suggestions := score.suggestions ++
        ["Focus on improving the lowest-scoring areas identified above"] }
  else score

/-- `scorer.LocalScorer.AnalyzeContent`. -/
def analyzeContent (weights : GEOWeights) (content : Str) (pageData : PageData) :
    GEOScore :=
  let breakdown : ScoreBreakdown :=
    { contentStructure := analyzeContentStructure content pageData
      semanticClarity := analyzeSemanticClarity content
      contextRichness := analyzeContextRichness content
      authoritySignals := analyzeAuthoritySignals content
      accessibility := analyzeAccessibility content pageData }
  let score : GEOScore :=
    { overall := calculateOverallScore weights breakdown
      breakdown := breakdown
      suggestions := []
      strengths := []
      weaknesses := []
      metaContentLength := content.length
      metaWordCount := (goFields content).length
      metaHeadingCount := pageData.headings.length
      metaMetaTagsCount := pageData.metaTags.length }
  generateInsights score

/-! ### The score-extraction regular expressions

The three patterns of `analyzer.extractScoreFromLLMResponse` are sequences of
the following items; matching is case-insensitive, backtracking,
leftmost-first, exactly the semantics Go's `regexp` applies to these
patterns.  Each pattern contains the single capture group `(\d+)`. -/

/-- One syntactic item of the score-extraction patterns. -/
inductive ReItem where
  /-- A case-insensitive literal. -/
  | litCI (s : Str)
  /-- `(?:a|b|…)`: alternation of literals, alternatives tried in order. -/
  | altLit (ss : List Str)
  /-- `(?:a|b|…)?`: optional alternation, greedy. -/
  | optAltLit (ss : List Str)
  /-- `c?`: optional single character, greedy. -/
  | optChar (c : Char)
  /-- `\s*`, greedy. -/
  | starSpace
  /-- The capture group `(\d+)`, greedy: at least one digit. -/
  | capDigits
  /-- Internal: the zero-or-more tail of `(\d+)`, greedy. -/
  | capDigitsMore
deriving DecidableEq, Repr

/-- `\s` of RE2: `[\t\n\f\r ]`. -/
def reSpace (c : Char) : Bool :=
  c = ' ' || c = '\t' || c = '\n' || c = '\x0c' || c = '\r'

/-- `\d` of RE2. -/
def reDigit (c : Char) : Bool := '0' ≤ c && c ≤ '9'

/-- Case-insensitive character comparison against a lowercase pattern char. -/
def ciChar (pat input : Char) : Bool := input.toLower = pat

/-- Case-insensitive literal prefix test. -/
def ciPrefix : Str → Str → Bool
  | [], _ => true
  | _ :: _, [] => false
  | p :: ps, i :: is => ciChar p i && ciPrefix ps is

/-- Fuel-driven backtracking matcher at a fixed start position.  `cap`
accumulates the digits captured by `capDigits`; a successful match returns
them.  Every recursive call consumes fuel, and each step either consumes
input or discharges an item, so fuel `input.length + items.length + 2`
always suffices. -/
def reMatchFuel : ℕ → List ReItem → Str → Str → Option Str
  | 0, _, _, _ => none
  | _ + 1, [], _, cap => some cap
  | fuel + 1, item :: items, input, cap =>
    match item with
    | .litCI s =>
      if ciPrefix s input then reMatchFuel fuel items (input.drop s.length) cap
      else none
    | .altLit ss =>
      ss.findSome? (fun s =>
        if ciPrefix s input then reMatchFuel fuel items (input.drop s.length) cap
        else none)
    | .optAltLit ss =>
      (ss.findSome? (fun s =>
        if ciPrefix s input then reMatchFuel fuel items (input.drop s.length) cap
        else none)).orElse
        (fun _ => reMatchFuel fuel items input cap)
    | .optChar c =>
      (match input with
       | i :: rest =>
         if ciChar c i then reMatchFuel fuel items rest cap else none
       | [] => none).orElse
        (fun _ => reMatchFuel fuel items input cap)
    | .starSpace =>
      match input with
      | i :: rest =>
        if reSpace i then
          (reMatchFuel fuel (ReItem.starSpace :: items) rest cap).orElse
            (fun _ => reMatchFuel fuel items input cap)
        else reMatchFuel fuel items input cap
      | [] => reMatchFuel fuel items input cap
    | .capDigits =>
      match input with
      | i :: rest =>
        if reDigit i then
          reMatchFuel fuel (ReItem.capDigitsMore :: items) rest (cap ++ [i])
        else none
      | [] => none
    | .capDigitsMore =>
      match input with
      | i :: rest =>
        if reDigit i then
          (reMatchFuel fuel (ReItem.capDigitsMore :: items) rest (cap ++ [i])).orElse
            (fun _ => reMatchFuel fuel items input cap)
        else reMatchFuel fuel items input cap
      | [] => reMatchFuel fuel items input cap

/-- Leftmost-first search (`regexp.FindStringSubmatch`): try every start
position from the left, return the capture of the first successful match. -/
def reFind (pattern : List ReItem) : Str → Option Str
  | [] => reMatchFuel (pattern.length + 2) pattern [] []
  | c :: rest =>
    (reMatchFuel ((c :: rest).length + pattern.length + 2) pattern (c :: rest) []).orElse
      (fun _ => reFind pattern rest)

/-- `(?i)(?:overall|total|final)\s*(?:score|rating)?:?\s*(\d+)(?:/100|%)?`. -/
def scorePattern1 : List ReItem :=
  [.altLit [str "overall", str "total", str "final"], .starSpace,
   .optAltLit [str "score", str "rating"], .optChar ':', .starSpace,
   .capDigits, .optAltLit [str "/100", str "%"]]

/-- `(?i)(?:score|rating):?\s*(\d+)(?:/100|%)?`. -/
def scorePattern2 : List ReItem :=
  [.altLit [str "score", str "rating"], .optChar ':', .starSpace,
   .capDigits, .optAltLit [str "/100", str "%"]]

/-- `(?i)(\d+)(?:/100|%)\s*(?:overall|total|final)?`. -/
def scorePattern3 : List ReItem :=
  [.capDigits, .altLit [str "/100", str "%"], .starSpace,
   .optAltLit [str "overall", str "total", str "final"]]

/-- `strconv.Atoi` on a non-empty digit string (overflow cannot occur in the
model; in the source an overflowing parse is rejected exactly like an
out-of-range value, with identical control flow). -/
def digitsToNat (ds : Str) : ℕ :=
  ds.foldl (fun acc c => 10 * acc + (c.toNat - '0'.toNat)) 0

/-- The pattern-list loop of `analyzer.extractScoreFromLLMResponse`. -/
def extractScoreLoop : List (List ReItem) → Str → ℤ
  | [], _ => 0
  | p :: ps, content =>
    match reFind p content with
    | some ds =>
      let score := digitsToNat ds
      if score ≤ 100 then (score : ℤ) else extractScoreLoop ps content
    | none => extractScoreLoop ps content

/-- `analyzer.extractScoreFromLLMResponse`: `0` is the no-score sentinel. -/
def extractScoreFromLLMResponse (content : Str) : ℤ :=
  extractScoreLoop [scorePattern1, scorePattern2, scorePattern3] content

/-! ### Mode orchestrator (`pkg/analyzer`)

The process environment is modelled by the two API-key variables the source
reads; the `llm.Provider` interface value is modelled as a function from the
analysed content and the prompt to a response or an error string.  Prompt
texts never influence the orchestrator's control flow, so prompts are kept
structured instead of re-embedding `fmt.Sprintf`. -/

/-- The environment variables consulted by `analyzer.getAPIKey`. -/
structure Env where
  claudeAPIKey : String
  openaiAPIKey : String
deriving DecidableEq, Repr

/-- `analyzer.getAPIKey`. -/
def getAPIKey (env : Env) (provider : String) : String :=
  if provider = "claude" then env.claudeAPIKey
  else if provider = "gpt" ∨ provider = "openai" then env.openaiAPIKey
  else ""

/-- `analyzer.hasValidAPIKey`. -/
def hasValidAPIKey (env : Env) (provider : String) : Bool :=
  let apiKey := getAPIKey env provider
  if apiKey = "" then false
  else if provider = "claude" then apiKey.startsWith "sk-ant-"
  else if provider = "gpt" ∨ provider = "openai" then apiKey.startsWith "sk-"
  else if provider = "local" then true
  else false

/-- `analyzer.determineOptimalMode`. -/
def determineOptimalMode (env : Env) (provider : String) : String :=
  if hasValidAPIKey env provider then "hybrid"
  else if ([ "openai", "claude" ] : List String).any (fun p => hasValidAPIKey env p)
    then "hybrid"
  else "local"

/-- The mode resolution performed by `analyzer.New` (before any scoring):
`auto` and the empty mode are replaced by `determineOptimalMode`. -/
def newResolvedMode (env : Env) (cfgMode cfgLLMProvider : String) : String :=
  if cfgMode = "auto" ∨ cfgMode = "" then determineOptimalMode env cfgLLMProvider
  else cfgMode

/-- `llm.Response`. -/
structure LLMResponse where
  content : Str
  tokensUsed : ℤ
  model : String
deriving DecidableEq, Repr

/-- The prompt argument of `Provider.Analyze`, kept structured:
`getGeoPrompt()` or `createHybridPrompt(localScore, content)`. -/
inductive Prompt where
  | geo
  | hybridOf (localScore : GEOScore) (content : Str)
deriving DecidableEq, Repr

/-- `analyzer.createHybridPrompt` (its text embeds the local score; the
`content` parameter is accepted and unused, as in the source). -/
def createHybridPrompt (localScore : GEOScore) (content : Str) : Prompt :=
  Prompt.hybridOf localScore content

/-- An `llm.Provider` interface value. -/
structure Provider where
  analyze : Str → Prompt → Except String LLMResponse
  name : String

/-- The `analyzer.Analyzer` fields consulted by `analyzePageData`. -/
structure AnalyzerState where
  mode : String
  originalMode : String
  llmProvider : String
  env : Env
  initError : Option String
  provider : Option Provider

/-- One piece of the `Result.Analysis` narrative (string concatenation of the
source kept structured). -/
inductive AnalysisPiece where
  | localAnalysis (score : GEOScore)
  | llmResponseText (text : Str)
  | llmRecommendation
deriving DecidableEq, Repr

/-- `analyzer.Result` (the `Metadata` map is modelled by its typed entries;
`ProcessedAt` wall-clock time is omitted). -/
structure AnalyzerResult where
  url : String
  title : Str
  analysis : List AnalysisPiece
  localScore : GEOScore
  score : ℤ
  suggestions : List String
  mode : String
  tokensUsed : ℤ
  scoringMethod : Option String
  metaLocalScore : Option ℤ
  metaLLMScore : Option ℤ
  metaLLMError : Option String
  metaModel : Option String
  metaProvider : Option String
deriving DecidableEq, Repr

/-- Go integer division (truncation toward zero). -/
def goDivInt (a b : ℤ) : ℤ := Int.tdiv a b

/-- `analyzer.analyzePageData`. -/
def analyzePageData (a : AnalyzerState) (pageData : PageData) (source : String) :
    Except String AnalyzerResult :=
  let localScore := analyzeContent newLocalScorerWeights pageData.content pageData
  let result : AnalyzerResult :=
    { url := source
      title := pageData.title
      analysis := []
      localScore := localScore
      score := localScore.overall
      suggestions := localScore.suggestions
      mode := a.mode
      tokensUsed := 0
      scoringMethod := none
      metaLocalScore := none
      metaLLMScore := none
      metaLLMError := none
      metaModel := none
      metaProvider := none }
  if a.mode = "local" then
    let result :=
      { result with
        analysis := [AnalysisPiece.localAnalysis localScore]
        scoringMethod := some "local_only" }
    let result :=
      if (a.originalMode = "auto" ∨ a.originalMode = "") ∧
          ¬ hasValidAPIKey a.env a.llmProvider then
        { result with analysis := result.analysis ++ [AnalysisPiece.llmRecommendation] }
      else result
    Except.ok result
  else if a.mode = "llm" then
    match a.initError with
    | some e => Except.error e
    | none =>
      match a.provider with
      | none => Except.error "LLM provider not available"
      | some p =>
        match p.analyze pageData.content Prompt.geo with
        | Except.error e => Except.error ("LLM analysis failed: " ++ e)
        | Except.ok response =>
          let llmScore := extractScoreFromLLMResponse response.content
          let result :=
            if 0 < llmScore then
              { result with
                score := goDivInt (localScore.overall + llmScore) 2
                metaLocalScore := some localScore.overall
                metaLLMScore := some llmScore
                scoringMethod := some "llm_averaged" }
            else
              { result with scoringMethod := some "llm_no_score_fallback" }
          Except.ok
            { result with
              analysis := [AnalysisPiece.llmResponseText response.content]
              tokensUsed := response.tokensUsed
              metaModel := some response.model
              metaProvider := some p.name }
  else if a.mode = "hybrid" then
    let result := { result with analysis := [AnalysisPiece.localAnalysis localScore] }
    match a.provider with
    | some p =>
      match p.analyze pageData.content (createHybridPrompt localScore pageData.content) with
      | Except.ok response =>
        let llmScore := extractScoreFromLLMResponse response.content
        let result :=
          if 0 < llmScore then
            { result with
              score := goDivInt (localScore.overall + llmScore) 2
              metaLocalScore := some localScore.overall
              metaLLMScore := some llmScore
              scoringMethod := some "hybrid_averaged" }
          else result
        Except.ok
          { result with
            analysis := result.analysis ++ [AnalysisPiece.llmResponseText response.content]
            tokensUsed := response.tokensUsed
            metaModel := some response.model
            metaProvider := some p.name }
      | Except.error e =>
        Except.ok
          { result with
            metaLLMError := some e
            scoringMethod := some "local_only_fallback" }
    | none =>
      Except.ok { result with scoringMethod := some "local_only" }
  else
    Except.ok result

/-! ### Batch runner (`pkg/bulk.ProcessURLs`)

Each of the `len(urls)` goroutines writes exactly the slot of its own index
into the pre-sized results slice; the semaphore only bounds how many may be
in flight.  The concurrent execution is modelled by an explicit completion
schedule: the order in which the workers perform their single write.  The
claim is proved for every schedule that runs every worker. -/

/-- `bulk.BulkResult`. -/
structure BulkResult where
  url : String
  result : Option AnalyzerResult
  error : Option String
deriving DecidableEq, Repr

/-- The body of one worker goroutine of `bulk.ProcessURLs` (semaphore
acquisition elided: it does not affect the written value). -/
def processOneURL (analyzeURL : String → Except String AnalyzerResult)
    (u : String) : BulkResult :=
  match analyzeURL u with
  | Except.ok analysisResult => { url := u, result := some analysisResult, error := none }
  | Except.error e => { url := u, result := none, error := some e }

/-- The single write `results[index] = result` performed by the worker of
`index` (the slot is written with that worker's own `BulkResult`). -/
def bulkWrite (analyzeURL : String → Except String AnalyzerResult)
    (urls : List String) (results : List (Option BulkResult)) (index : ℕ) :
    List (Option BulkResult) :=
  match urls[index]? with
  | some u => results.set index (some (processOneURL analyzeURL u))
  | none => results

/-- `bulk.ProcessURLs` under a completion schedule: the pre-sized results
slice starts empty and each scheduled worker writes its own slot; the
concurrency limit bounds how many workers are in flight and is irrelevant to
the written values. -/
def processURLs (analyzeURL : String → Except String AnalyzerResult)
    (concurrent : ℕ) (urls : List String) (schedule : List ℕ) :
    List (Option BulkResult) :=
  let _ := concurrent
  schedule.foldl (bulkWrite analyzeURL urls) (List.replicate urls.length none)

/-! ### Spec-side restatements used for refinement comparisons -/

/-- Round half away from zero, written from the spec's words ("standard
round-half-away-from-zero"), to be compared with `mathRound`. -/
def roundHalfAwayFromZero (q : ℚ) : ℤ :=
  if 0 ≤ q then ⌊q + 1 / 2⌋ else ⌈q - 1 / 2⌉

/-- Score extraction written from the spec's words: scan the three patterns
in priority order, take the first capture group parseable as an integer in
`[0,100]`, `none` when no pattern yields one. -/
def extractScoreSpec (content : Str) : Option ℕ :=
  [scorePattern1, scorePattern2, scorePattern3].findSome? (fun pattern =>
    (reFind pattern content).bind (fun ds =>
      let n := digitsToNat ds
      if n ≤ 100 then some n else none))

/-- Vowel test of the syllable estimator. -/
def isVowelChar (c : Char) : Bool := goContainsRune vowels c

/-- Non-vowel→vowel transition count, written from the spec's words: a
boundary is a vowel whose predecessor (or the start of the word) is not a
vowel. -/
def specTransitions (w : Str) : ℤ :=
  (((w.map isVowelChar).zip (false :: w.map isVowelChar)).filter
    (fun p => p.1 && !p.2)).length

/-- Syllable estimation written from the spec's words: lower-case, count
non-vowel→vowel transitions, subtract one for a trailing "e" when the count
exceeds one, floor the result at one. -/
def specSyllables (word : Str) : ℤ :=
  let w := goToLower word
  let boundaries := specTransitions w
  let adjusted :=
    if goHasSuffix w (str "e") ∧ 1 < boundaries then boundaries - 1
    else boundaries
  max 1 adjusted

/-- The words longer than four runes of the lower-cased content, the
candidate key terms of `evaluateTerminologyConsistency`. -/
def qualifyingTerms (content : Str) : List Str :=
  (goFields (goToLower content)).filter (fun w => 4 < w.length)

/-- The `ScoreDetail` invariant stated by the spec: the score lies in
`[0, max]`, the per-dimension maximum is the constant 100, and the
percentage is `100 * score / max`. -/
def detailOK (d : ScoreDetail) : Prop :=
  0 ≤ d.score ∧ d.score ≤ d.maxScore ∧ d.maxScore = 100 ∧
  d.percentage = 100 * (d.score : ℚ) / (d.maxScore : ℚ)

/-! ### Concrete inputs for the closed instances -/

/-- A minimal page-data record (empty content). -/
def emptyPageData : PageData :=
  { url := "", title := [], content := [], metaTags := [], headings := [] }

/-- A provider whose every analysis replies with the fixed text "Score: 51". -/
def providerScore51 : Provider :=
  { analyze := fun _ _ =>
      Except.ok { content := str "Score: 51", tokensUsed := 7, model := "m" }
    name := "fake" }

/-- A provider whose every analysis replies with the fixed text "Score: 0". -/
def providerScore0 : Provider :=
  { analyze := fun _ _ =>
      Except.ok { content := str "Score: 0", tokensUsed := 7, model := "m" }
    name := "fake" }

/-- A provider whose every analysis fails with the fixed error "boom". -/
def providerBoom : Provider :=
  { analyze := fun _ _ => Except.error "boom", name := "fake" }

/-- An analyzer state in `llm` mode backed by `providerScore51`. -/
def llmState51 : AnalyzerState :=
  { mode := "llm", originalMode := "llm", llmProvider := "claude"
    env := { claudeAPIKey := "", openaiAPIKey := "" }
    initError := none, provider := some providerScore51 }

/-- An analyzer state in `llm` mode backed by `providerScore0`. -/
def llmState0 : AnalyzerState :=
  { mode := "llm", originalMode := "llm", llmProvider := "claude"
    env := { claudeAPIKey := "", openaiAPIKey := "" }
    initError := none, provider := some providerScore0 }

/-- An analyzer state in `hybrid` mode backed by `providerBoom`. -/
def hybridBoomState : AnalyzerState :=
  { mode := "hybrid", originalMode := "hybrid", llmProvider := "claude"
    env := { claudeAPIKey := "", openaiAPIKey := "" }
    initError := none, provider := some providerBoom }

/-! ## Theorems -/

/-- The rune loop of `countSyllables` computes exactly the number of
non-vowel→vowel transitions with the given initial flag. -/
theorem countSyllablesLoop_eq_zip (w : Str) :
    ∀ prev, countSyllablesLoop w prev =
      ((((w.map isVowelChar).zip (prev :: w.map isVowelChar)).filter
        (fun p => p.1 && !p.2)).length : ℤ) := by
  induction w with
  | nil => intro prev; simp [countSyllablesLoop]
  | cons c rest ih =>
    intro prev
    have hc : goContainsRune vowels c = isVowelChar c := rfl
    simp only [countSyllablesLoop, hc, List.map_cons, List.zip_cons_cons,
      List.filter_cons, ih (isVowelChar c)]
    cases h : (isVowelChar c && !prev) <;> simp [h] <;> omega

/-- The transition count is non-negative. -/
theorem countSyllablesLoop_nonneg (w : Str) (prev : Bool) :
    0 ≤ countSyllablesLoop w prev := by
  rw [countSyllablesLoop_eq_zip]
  exact Int.natCast_nonneg _

/-- C8: the syllable estimator lower-cases the word, counts non-vowel→vowel
transitions (vowels `a,e,i,o,u,y`), subtracts one for a trailing "e" when the
count exceeds one, and floors at one; it returns at least 1 for every
non-empty word, with "the" → 1 and "beautiful" → 3. -/
theorem countSyllables_matches_spec :
    (∀ w : Str, countSyllables w = specSyllables w) ∧
    (∀ w : Str, w ≠ [] → 1 ≤ countSyllables w) ∧
    countSyllables (str "the") = 1 ∧
    countSyllables (str "beautiful") = 3 := by
  have key : ∀ w : Str, countSyllables w = specSyllables w := by
    intro w
    have h : countSyllablesLoop (goToLower w) false = specTransitions (goToLower w) := by
      rw [countSyllablesLoop_eq_zip]; rfl
    have ht : 0 ≤ specTransitions (goToLower w) := by
      unfold specTransitions; exact Int.natCast_nonneg _
    simp only [countSyllables, specSyllables, h]
    split_ifs with h1 h2 h3 <;> omega
  refine ⟨key, ?_, by decide, by decide⟩
  intro w _
  have h0 := countSyllablesLoop_nonneg (goToLower w) false
  simp only [countSyllables]
  split_ifs with h1 h2 h3 <;> omega

/-- C8 witness: the estimator at the concrete non-empty word "beautiful". -/
theorem countSyllables_matches_spec_witness :
    (str "beautiful") ≠ [] ∧ 1 ≤ countSyllables (str "beautiful") :=
  ⟨by decide, countSyllables_matches_spec.2.1 (str "beautiful") (by decide)⟩

/-- The totalling fold of `evaluateTerminologyConsistency` increments both
components under the same predicate, so they stay equal in lock step. -/
theorem terminologyFold_eq (counts : List ℕ) :
    ∀ a b : ℕ,
      counts.foldl
        (fun (p : ℕ × ℕ) count =>
          if 3 ≤ count then (p.1 + 1, if 3 ≤ count then p.2 + 1 else p.2) else p)
        (a, b) =
      (a + (counts.filter (fun c => 3 ≤ c)).length,
       b + (counts.filter (fun c => 3 ≤ c)).length) := by
  induction counts with
  | nil => intro a b; simp
  | cons c rest ih =>
    intro a b
    by_cases h : 3 ≤ c
    · simp only [List.foldl_cons, List.filter_cons, if_pos h,
        decide_eq_true_eq, h, ih, List.length_cons, if_true, if_pos trivial]
      simp only [Prod.mk.injEq]
      constructor <;> omega
    · simp [List.foldl_cons, List.filter_cons, h, ih]

/-- Closed form of `evaluateTerminologyConsistency`: 30 when some word of
more than four runes occurs at least three times in the lower-cased content,
15 otherwise. -/
theorem evaluateTerminologyConsistency_eq (content : Str) :
    evaluateTerminologyConsistency content =
      if ∃ w ∈ qualifyingTerms content, 3 ≤ (qualifyingTerms content).count w
      then 30 else 15 := by
  unfold evaluateTerminologyConsistency qualifyingTerms
  simp only [terminologyFold_eq, Nat.zero_add]
  set longWords := (goFields (goToLower content)).filter (fun w => 4 < w.length)
    with hlw
  set counts := longWords.dedup.map (fun w => longWords.count w) with hcounts
  set t := (counts.filter (fun c => 3 ≤ c)).length with ht
  have hcond : t = 0 ↔ ¬ ∃ w ∈ longWords, 3 ≤ longWords.count w := by
    rw [ht, List.length_eq_zero, List.filter_eq_nil_iff]
    constructor
    · intro hall ⟨w, hw, hcnt⟩
      exact hall (longWords.count w)
        (List.mem_map_of_mem _ (List.mem_dedup.mpr hw)) (by simpa using hcnt)
    · intro hnone c hc
      rcases List.mem_map.mp hc with ⟨w, hw, rfl⟩
      simp only [decide_eq_true_eq]
      intro hge
      exact hnone ⟨w, List.mem_dedup.mp hw, hge⟩
  by_cases h0 : t = 0
  · rw [if_pos h0, if_neg (hcond.mp h0)]
  · rw [if_neg h0, if_pos (by
      by_contra hno
      exact h0 (hcond.mpr hno))]
    have htQ : (t : ℚ) ≠ 0 := by exact_mod_cast h0
    rw [div_self htQ, one_mul]
    unfold goTrunc
    norm_num

/-- C9: the terminology-consistency sub-score takes only the two values 15
(no lower-cased word longer than four runes occurs at least three times) and
30 (otherwise); the consistent-terms ratio is exactly 1 whenever a
qualifying term exists because numerator and denominator apply the same
count-at-least-3 condition. -/
theorem terminologyConsistency_two_valued :
    ∀ content : Str,
      (evaluateTerminologyConsistency content = 15 ∨
        evaluateTerminologyConsistency content = 30) ∧
      (evaluateTerminologyConsistency content = 30 ↔
        ∃ w ∈ qualifyingTerms content, 3 ≤ (qualifyingTerms content).count w) ∧
      (evaluateTerminologyConsistency content = 15 ↔
        ¬ ∃ w ∈ qualifyingTerms content, 3 ≤ (qualifyingTerms content).count w) := by
  intro content
  rw [evaluateTerminologyConsistency_eq]
  by_cases h : ∃ w ∈ qualifyingTerms content, 3 ≤ (qualifyingTerms content).count w
  · simp [h]
  · simp [h]

/-! ### Bounds of the sub-evaluators -/

theorem evaluateHeadingHierarchy_bounds (hs : List Heading) :
    0 ≤ evaluateHeadingHierarchy hs ∧ evaluateHeadingHierarchy hs ≤ 30 := by
  simp only [evaluateHeadingHierarchy, goMin]
  split_ifs <;> omega

theorem evaluateContentOrganization_bounds (content : Str) :
    5 ≤ evaluateContentOrganization content ∧
    evaluateContentOrganization content ≤ 25 := by
  simp only [evaluateContentOrganization, goMin]
  split_ifs <;> omega

theorem evaluateParagraphStructure_bounds (content : Str) :
    0 ≤ evaluateParagraphStructure content ∧
    evaluateParagraphStructure content ≤ 25 := by
  simp only [evaluateParagraphStructure]
  set paragraphs := goSplit content (str "\n\n") with hp
  set g := (paragraphs.filter (fun para =>
      decide (20 ≤ (goFields para).length ∧ (goFields para).length ≤ 150))).length
    with hg
  have hle : g ≤ paragraphs.length := List.length_filter_le _ _
  split_ifs with h
  · have hpos : (0 : ℚ) < (paragraphs.length : ℚ) := by exact_mod_cast h
    have hr0 : (0 : ℚ) ≤ (g : ℚ) / (paragraphs.length : ℚ) := by positivity
    have hr1 : (g : ℚ) / (paragraphs.length : ℚ) ≤ 1 := by
      rw [div_le_one hpos]; exact_mod_cast hle
    simp only [goTrunc, if_pos (by positivity :
      (0 : ℚ) ≤ (g : ℚ) / (paragraphs.length : ℚ) * 25)]
    constructor
    · exact Int.floor_nonneg.mpr (by positivity)
    · have h25 : (g : ℚ) / (paragraphs.length : ℚ) * 25 ≤ 25 := by nlinarith
      calc ⌊(g : ℚ) / (paragraphs.length : ℚ) * 25⌋ ≤ ⌊(25 : ℚ)⌋ :=
            Int.floor_le_floor h25
        _ = 25 := by norm_num
  · omega

theorem evaluateListUsage_bounds (content : Str) :
    5 ≤ evaluateListUsage content ∧ evaluateListUsage content ≤ 20 := by
  simp only [evaluateListUsage]
  split_ifs <;> omega

theorem evaluateReadability_bounds (content : Str) :
    0 ≤ evaluateReadability content ∧ evaluateReadability content ≤ 40 := by
  simp only [evaluateReadability, goMin]
  split_ifs <;> omega

theorem evaluateTerminologyConsistency_bounds (content : Str) :
    0 ≤ evaluateTerminologyConsistency content ∧
    evaluateTerminologyConsistency content ≤ 30 := by
  rw [evaluateTerminologyConsistency_eq]
  split_ifs <;> omega

theorem evaluateDefinitionClarity_bounds (content : Str) :
    10 ≤ evaluateDefinitionClarity content ∧
    evaluateDefinitionClarity content ≤ 30 := by
  simp only [evaluateDefinitionClarity]
  split_ifs <;> omega

theorem evaluateContentDepth_bounds (content : Str) :
    5 ≤ evaluateContentDepth content ∧ evaluateContentDepth content ≤ 40 := by
  simp only [evaluateContentDepth]
  split_ifs <;> omega

theorem evaluateExamplesAndSpecifics_bounds (content : Str) :
    5 ≤ evaluateExamplesAndSpecifics content ∧
    evaluateExamplesAndSpecifics content ≤ 35 := by
  simp only [evaluateExamplesAndSpecifics]
  split_ifs <;> omega

theorem evaluateBackgroundInfo_bounds (content : Str) :
    5 ≤ evaluateBackgroundInfo content ∧
    evaluateBackgroundInfo content ≤ 25 := by
  simp only [evaluateBackgroundInfo]
  split_ifs <;> omega

theorem evaluateCitations_bounds (content : Str) :
    5 ≤ evaluateCitations content ∧ evaluateCitations content ≤ 40 := by
  simp only [evaluateCitations]
  split_ifs <;> omega

theorem evaluateExpertiseIndicators_bounds (content : Str) :
    10 ≤ evaluateExpertiseIndicators content ∧
    evaluateExpertiseIndicators content ≤ 35 := by
  simp only [evaluateExpertiseIndicators]
  split_ifs <;> omega

theorem evaluateFactualAccuracy_bounds (content : Str) :
    15 ≤ evaluateFactualAccuracy content ∧
    evaluateFactualAccuracy content ≤ 25 := by
  simp only [evaluateFactualAccuracy, goMin]
  split_ifs <;> omega

theorem evaluateMetaInformation_bounds (pd : PageData) :
    0 ≤ evaluateMetaInformation pd ∧ evaluateMetaInformation pd ≤ 30 := by
  simp only [evaluateMetaInformation, goMin]
  rcases pd.metaLookup (str "description") with _ | desc <;>
      rcases pd.metaLookup (str "keywords") with _ | keywords
  · simp; split_ifs <;> norm_num
  · simp; split_ifs <;> norm_num
  · simp; split_ifs <;> norm_num
  · simp; split_ifs <;> norm_num

theorem evaluateParsingFriendliness_bounds (content : Str) :
    15 ≤ evaluateParsingFriendliness content ∧
    evaluateParsingFriendliness content ≤ 35 := by
  simp only [evaluateParsingFriendliness, goMin]
  split_ifs <;> omega

theorem evaluateInformationDensity_bounds (content : Str) :
    0 ≤ evaluateInformationDensity content ∧
    evaluateInformationDensity content ≤ 35 := by
  simp only [evaluateInformationDensity]
  split_ifs <;> omega

/-! ### Shape of the five dimension details -/

theorem analyzeContentStructure_fields (content : Str) (pd : PageData) :
    (analyzeContentStructure content pd).score =
      evaluateHeadingHierarchy pd.headings + evaluateContentOrganization content +
        evaluateParagraphStructure content + evaluateListUsage content ∧
    (analyzeContentStructure content pd).maxScore = 100 ∧
    (analyzeContentStructure content pd).percentage =
      (((analyzeContentStructure content pd).score : ℚ)) / 100 * 100 := by
  refine ⟨by simp only [analyzeContentStructure]; ring, ?_, ?_⟩ <;>
    · simp only [analyzeContentStructure]
      split_ifs <;> simp <;> try ring

theorem analyzeSemanticClarity_fields (content : Str) :
    (analyzeSemanticClarity content).score =
      evaluateReadability content + evaluateTerminologyConsistency content +
        evaluateDefinitionClarity content ∧
    (analyzeSemanticClarity content).maxScore = 100 ∧
    (analyzeSemanticClarity content).percentage =
      (((analyzeSemanticClarity content).score : ℚ)) / 100 * 100 := by
  refine ⟨by simp only [analyzeSemanticClarity]; ring, ?_, ?_⟩ <;>
    · simp only [analyzeSemanticClarity]
      split_ifs <;> simp <;> try ring

theorem analyzeContextRichness_fields (content : Str) :
    (analyzeContextRichness content).score =
      evaluateContentDepth content + evaluateExamplesAndSpecifics content +
        evaluateBackgroundInfo content ∧
    (analyzeContextRichness content).maxScore = 100 ∧
    (analyzeContextRichness content).percentage =
      (((analyzeContextRichness content).score : ℚ)) / 100 * 100 := by
  refine ⟨by simp only [analyzeContextRichness]; ring, ?_, ?_⟩ <;>
    · simp only [analyzeContextRichness]
      split_ifs <;> simp <;> try ring

theorem analyzeAuthoritySignals_fields (content : Str) :
    (analyzeAuthoritySignals content).score =
      evaluateCitations content + evaluateExpertiseIndicators content +
        evaluateFactualAccuracy content ∧
    (analyzeAuthoritySignals content).maxScore = 100 ∧
    (analyzeAuthoritySignals content).percentage =
      (((analyzeAuthoritySignals content).score : ℚ)) / 100 * 100 := by
  refine ⟨by simp only [analyzeAuthoritySignals]; ring, ?_, ?_⟩ <;>
    · simp only [analyzeAuthoritySignals]
      split_ifs <;> simp <;> try ring

theorem analyzeAccessibility_fields (content : Str) (pd : PageData) :
    (analyzeAccessibility content pd).score =
      evaluateMetaInformation pd + evaluateParsingFriendliness content +
        evaluateInformationDensity content ∧
    (analyzeAccessibility content pd).maxScore = 100 ∧
    (analyzeAccessibility content pd).percentage =
      (((analyzeAccessibility content pd).score : ℚ)) / 100 * 100 := by
  refine ⟨by simp only [analyzeAccessibility]; ring, ?_, ?_⟩ <;>
    · simp only [analyzeAccessibility]
      split_ifs <;> simp <;> try ring

/-- One insights step never changes the overall score or the breakdown. -/
theorem insightsStep_preserves (t : GEOScore) (d : ScoreDetail) :
    (insightsStep t d).overall = t.overall ∧
    (insightsStep t d).breakdown = t.breakdown := by
  simp only [insightsStep]
  split_ifs <;> exact ⟨rfl, rfl⟩

/-- Folding insights steps never changes the overall score or the
breakdown. -/
theorem foldl_insightsStep_preserves (l : List ScoreDetail) :
    ∀ t : GEOScore,
      (l.foldl insightsStep t).overall = t.overall ∧
      (l.foldl insightsStep t).breakdown = t.breakdown := by
  induction l with
  | nil => intro t; exact ⟨rfl, rfl⟩
  | cons d rest ih =>
    intro t
    simp only [List.foldl_cons]
    exact ⟨(ih _).1.trans (insightsStep_preserves t d).1,
      (ih _).2.trans (insightsStep_preserves t d).2⟩

/-- `generateInsights` never changes the overall score or the breakdown. -/
theorem generateInsights_preserves (s : GEOScore) :
    (generateInsights s).overall = s.overall ∧
    (generateInsights s).breakdown = s.breakdown := by
  simp only [generateInsights]
  have h := foldl_insightsStep_preserves
    [s.breakdown.contentStructure, s.breakdown.semanticClarity,
     s.breakdown.contextRichness, s.breakdown.authoritySignals,
     s.breakdown.accessibility] s
  split_ifs <;> exact ⟨h.1, h.2⟩

/-- The breakdown returned by `analyzeContent` is the record of the five
dimension analyzers, and its overall score is `calculateOverallScore`. -/
theorem analyzeContent_fields (w : GEOWeights) (content : Str) (pd : PageData) :
    (analyzeContent w content pd).breakdown =
      { contentStructure := analyzeContentStructure content pd
        semanticClarity := analyzeSemanticClarity content
        contextRichness := analyzeContextRichness content
        authoritySignals := analyzeAuthoritySignals content
        accessibility := analyzeAccessibility content pd } ∧
    (analyzeContent w content pd).overall =
      calculateOverallScore w (analyzeContent w content pd).breakdown := by
  have h1 := generateInsights_preserves
    { overall := calculateOverallScore w
        { contentStructure := analyzeContentStructure content pd
          semanticClarity := analyzeSemanticClarity content
          contextRichness := analyzeContextRichness content
          authoritySignals := analyzeAuthoritySignals content
          accessibility := analyzeAccessibility content pd }
      breakdown :=
        { contentStructure := analyzeContentStructure content pd
          semanticClarity := analyzeSemanticClarity content
          contextRichness := analyzeContextRichness content
          authoritySignals := analyzeAuthoritySignals content
          accessibility := analyzeAccessibility content pd }
      suggestions := []
      strengths := []
      weaknesses := []
      metaContentLength := content.length
      metaWordCount := (goFields content).length
      metaHeadingCount := pd.headings.length
      metaMetaTagsCount := pd.metaTags.length }
  constructor
  · simp only [analyzeContent]
    exact h1.2
  · simp only [analyzeContent]
    rw [h1.1, h1.2]

/-- `calculateOverallScore` is the round-half-away-from-zero of the weighted
sum of the five dimension scores. -/
theorem calculateOverallScore_eq_round (w : GEOWeights) (b : ScoreBreakdown) :
    calculateOverallScore w b =
      roundHalfAwayFromZero
        (w.contentStructure * (b.contentStructure.score : ℚ) +
         w.semanticClarity * (b.semanticClarity.score : ℚ) +
         w.contextRichness * (b.contextRichness.score : ℚ) +
         w.authoritySignals * (b.authoritySignals.score : ℚ) +
         w.accessibility * (b.accessibility.score : ℚ)) := by
  simp only [calculateOverallScore]
  rw [show (0 : ℚ) + (b.contentStructure.score : ℚ) * w.contentStructure +
      (b.semanticClarity.score : ℚ) * w.semanticClarity +
      (b.contextRichness.score : ℚ) * w.contextRichness +
      (b.authoritySignals.score : ℚ) * w.authoritySignals +
      (b.accessibility.score : ℚ) * w.accessibility =
      w.contentStructure * (b.contentStructure.score : ℚ) +
      w.semanticClarity * (b.semanticClarity.score : ℚ) +
      w.contextRichness * (b.contextRichness.score : ℚ) +
      w.authoritySignals * (b.authoritySignals.score : ℚ) +
      w.accessibility * (b.accessibility.score : ℚ) from by ring]
  rfl

/-- C3: for every content and page document, the local scorer's overall
score is `round(Σ weight_i * score_i)` with round-half-away-from-zero, the
weights being the static configuration 0.25, 0.25, 0.20, 0.15, 0.15, whose
sum is 1 within 1e-6. -/
theorem overall_equals_weighted_round :
    ∀ (content : Str) (pageData : PageData),
      newLocalScorerWeights.contentStructure = 0.25 ∧
      newLocalScorerWeights.semanticClarity = 0.25 ∧
      newLocalScorerWeights.contextRichness = 0.20 ∧
      newLocalScorerWeights.authoritySignals = 0.15 ∧
      newLocalScorerWeights.accessibility = 0.15 ∧
      |newLocalScorerWeights.contentStructure + newLocalScorerWeights.semanticClarity +
        newLocalScorerWeights.contextRichness + newLocalScorerWeights.authoritySignals +
        newLocalScorerWeights.accessibility - 1| ≤ 1 / 1000000 ∧
      (analyzeContent newLocalScorerWeights content pageData).overall =
        roundHalfAwayFromZero
          (newLocalScorerWeights.contentStructure *
            ((analyzeContent newLocalScorerWeights content pageData).breakdown.contentStructure.score : ℚ) +
           newLocalScorerWeights.semanticClarity *
            ((analyzeContent newLocalScorerWeights content pageData).breakdown.semanticClarity.score : ℚ) +
           newLocalScorerWeights.contextRichness *
            ((analyzeContent newLocalScorerWeights content pageData).breakdown.contextRichness.score : ℚ) +
           newLocalScorerWeights.authoritySignals *
            ((analyzeContent newLocalScorerWeights content pageData).breakdown.authoritySignals.score : ℚ) +
           newLocalScorerWeights.accessibility *
            ((analyzeContent newLocalScorerWeights content pageData).breakdown.accessibility.score : ℚ)) := by
  intro content pageData
  refine ⟨rfl, rfl, rfl, rfl, rfl, by norm_num [newLocalScorerWeights], ?_⟩
  have h := (analyzeContent_fields newLocalScorerWeights content pageData).2
  rw [h, calculateOverallScore_eq_round]

/-- C7: every `ScoreDetail` of the breakdown produced by the local scorer
has its score within `[0, max]` with `max = 100` and percentage equal to
`100 * score / max`. -/
theorem scoreDetails_within_bounds :
    ∀ (content : Str) (pageData : PageData),
      detailOK (analyzeContent newLocalScorerWeights content pageData).breakdown.contentStructure ∧
      detailOK (analyzeContent newLocalScorerWeights content pageData).breakdown.semanticClarity ∧
      detailOK (analyzeContent newLocalScorerWeights content pageData).breakdown.contextRichness ∧
      detailOK (analyzeContent newLocalScorerWeights content pageData).breakdown.authoritySignals ∧
      detailOK (analyzeContent newLocalScorerWeights content pageData).breakdown.accessibility := by
  intro content pd
  rw [(analyzeContent_fields newLocalScorerWeights content pd).1]
  refine ⟨?_, ?_, ?_, ?_, ?_⟩
  · have hf := analyzeContentStructure_fields content pd
    have h1 := evaluateHeadingHierarchy_bounds pd.headings
    have h2 := evaluateContentOrganization_bounds content
    have h3 := evaluateParagraphStructure_bounds content
    have h4 := evaluateListUsage_bounds content
    refine ⟨by rw [hf.1]; omega, by rw [hf.1, hf.2.1]; omega, hf.2.1, ?_⟩
    rw [hf.2.2, hf.2.1]
    ring
  · have hf := analyzeSemanticClarity_fields content
    have h1 := evaluateReadability_bounds content
    have h2 := evaluateTerminologyConsistency_bounds content
    have h3 := evaluateDefinitionClarity_bounds content
    refine ⟨by rw [hf.1]; omega, by rw [hf.1, hf.2.1]; omega, hf.2.1, ?_⟩
    rw [hf.2.2, hf.2.1]
    ring
  · have hf := analyzeContextRichness_fields content
    have h1 := evaluateContentDepth_bounds content
    have h2 := evaluateExamplesAndSpecifics_bounds content
    have h3 := evaluateBackgroundInfo_bounds content
    refine ⟨by rw [hf.1]; omega, by rw [hf.1, hf.2.1]; omega, hf.2.1, ?_⟩
    rw [hf.2.2, hf.2.1]
    ring
  · have hf := analyzeAuthoritySignals_fields content
    have h1 := evaluateCitations_bounds content
    have h2 := evaluateExpertiseIndicators_bounds content
    have h3 := evaluateFactualAccuracy_bounds content
    refine ⟨by rw [hf.1]; omega, by rw [hf.1, hf.2.1]; omega, hf.2.1, ?_⟩
    rw [hf.2.2, hf.2.1]
    ring
  · have hf := analyzeAccessibility_fields content pd
    have h1 := evaluateMetaInformation_bounds pd
    have h2 := evaluateParsingFriendliness_bounds content
    have h3 := evaluateInformationDensity_bounds content
    refine ⟨by rw [hf.1]; omega, by rw [hf.1, hf.2.1]; omega, hf.2.1, ?_⟩
    rw [hf.2.2, hf.2.1]
    ring

/-- C2: score extraction tries the three patterns in priority order and
returns the first capture group parseable as an integer in `[0,100]`
(`extractScoreSpec`, written from the spec's words, agrees with the source
function everywhere, `none` coinciding with the `0` sentinel);
"Overall Score: 84/100" yields 84 and "no numeric content here" fails. -/
theorem extractScore_priority_and_examples :
    (∀ content : Str,
      extractScoreFromLLMResponse content =
        ((extractScoreSpec content).map (fun n => (n : ℤ))).getD 0) ∧
    extractScoreFromLLMResponse (str "Overall Score: 84/100") = 84 ∧
    extractScoreSpec (str "Overall Score: 84/100") = some 84 ∧
    extractScoreFromLLMResponse (str "no numeric content here") = 0 ∧
    extractScoreSpec (str "no numeric content here") = none := by
  refine ⟨?_, by decide, by decide, by decide, by decide⟩
  intro content
  simp only [extractScoreFromLLMResponse, extractScoreSpec, extractScoreLoop,
    List.findSome?_cons, List.findSome?_nil]
  cases h1 : reFind scorePattern1 content <;>
    cases h2 : reFind scorePattern2 content <;>
      cases h3 : reFind scorePattern3 content <;>
        simp only [extractScoreLoop, h1, h2, h3, Option.bind_some,
          Option.bind_none, Option.some_bind, Option.none_bind] <;>
        first
          | (split_ifs <;> simp)
          | simp

/-- The llm-mode branch of `analyzePageData` in closed form. -/
theorem analyzePageData_llm_shape (a : AnalyzerState) (pd : PageData)
    (src : String) (p : Provider) (resp : LLMResponse)
    (hmode : a.mode = "llm") (hinit : a.initError = none)
    (hprov : a.provider = some p)
    (hcall : p.analyze pd.content Prompt.geo = Except.ok resp) :
    ∃ r, analyzePageData a pd src = Except.ok r ∧
      r.localScore = analyzeContent newLocalScorerWeights pd.content pd ∧
      r.score = (if 0 < extractScoreFromLLMResponse resp.content then
          goDivInt ((analyzeContent newLocalScorerWeights pd.content pd).overall +
            extractScoreFromLLMResponse resp.content) 2
        else (analyzeContent newLocalScorerWeights pd.content pd).overall) ∧
      r.scoringMethod = some (if 0 < extractScoreFromLLMResponse resp.content
        then "llm_averaged" else "llm_no_score_fallback") ∧
      r.metaLLMScore = (if 0 < extractScoreFromLLMResponse resp.content
        then some (extractScoreFromLLMResponse resp.content) else none) := by
  simp only [analyzePageData, hmode, hinit, hprov, hcall, reduceIte]
  by_cases hpos : 0 < extractScoreFromLLMResponse resp.content
  · rw [if_pos hpos, if_pos hpos, if_pos hpos, if_pos hpos]
    exact ⟨_, rfl, rfl, rfl, rfl, rfl⟩
  · rw [if_neg hpos, if_neg hpos, if_neg hpos, if_neg hpos]
    exact ⟨_, rfl, rfl, rfl, rfl, rfl⟩

/-- The paragraph sub-score of the empty content. -/
theorem evaluateParagraphStructure_empty :
    evaluateParagraphStructure emptyPageData.content = 0 := by
  have h1 : goSplit emptyPageData.content (str "\n\n") = [[]] := by decide
  simp only [evaluateParagraphStructure, h1]
  norm_num [goFields, goFieldsAux, goTrunc]

/-- The information-density sub-score of the empty content. -/
theorem evaluateInformationDensity_empty :
    evaluateInformationDensity emptyPageData.content = 10 := by
  have h1 : goSplit emptyPageData.content (str ".") = [[]] := by decide
  have h2 : goFields emptyPageData.content = [] := by decide
  simp only [evaluateInformationDensity, h1, h2]
  norm_num

/-- The local overall score of the empty page is 20. -/
theorem emptyContent_overall :
    (analyzeContent newLocalScorerWeights emptyPageData.content
      emptyPageData).overall = 20 := by
  have hfields :=
    analyzeContent_fields newLocalScorerWeights emptyPageData.content emptyPageData
  rw [hfields.2, hfields.1, calculateOverallScore_eq_round]
  have c1 : (analyzeContentStructure emptyPageData.content emptyPageData).score = 10 := by
    rw [(analyzeContentStructure_fields _ _).1,
      show evaluateHeadingHierarchy emptyPageData.headings = 0 from by decide,
      show evaluateContentOrganization emptyPageData.content = 5 from by decide,
      evaluateParagraphStructure_empty,
      show evaluateListUsage emptyPageData.content = 5 from by decide]
    decide
  have c2 : (analyzeSemanticClarity emptyPageData.content).score = 25 := by
    rw [(analyzeSemanticClarity_fields _).1,
      show evaluateReadability emptyPageData.content = 0 from by decide,
      show evaluateTerminologyConsistency emptyPageData.content = 15 from by decide,
      show evaluateDefinitionClarity emptyPageData.content = 10 from by decide]
    decide
  have c3 : (analyzeContextRichness emptyPageData.content).score = 15 := by
    rw [(analyzeContextRichness_fields _).1,
      show evaluateContentDepth emptyPageData.content = 5 from by decide,
      show evaluateExamplesAndSpecifics emptyPageData.content = 5 from by decide,
      show evaluateBackgroundInfo emptyPageData.content = 5 from by decide]
    decide
  have c4 : (analyzeAuthoritySignals emptyPageData.content).score = 30 := by
    rw [(analyzeAuthoritySignals_fields _).1,
      show evaluateCitations emptyPageData.content = 5 from by decide,
      show evaluateExpertiseIndicators emptyPageData.content = 10 from by decide,
      show evaluateFactualAccuracy emptyPageData.content = 15 from by decide]
    decide
  have c5 : (analyzeAccessibility emptyPageData.content emptyPageData).score = 25 := by
    rw [(analyzeAccessibility_fields _ _).1,
      show evaluateMetaInformation emptyPageData = 0 from by decide,
      show evaluateParsingFriendliness emptyPageData.content = 15 from by decide,
      evaluateInformationDensity_empty]
    decide
  simp only [c1, c2, c3, c4, c5]
  norm_num [newLocalScorerWeights, roundHalfAwayFromZero]

/-- C1 counterexample: in llm mode with local overall 20 and extracted score
51, the source computes final score (20+51)/2 = 35 with Go integer division,
while round((20+51)/2) = 36 — the claimed rounding does not hold. -/
theorem llm_average_not_rounded :
    ∃ r, analyzePageData llmState51 emptyPageData "src" = Except.ok r ∧
      r.localScore.overall = 20 ∧ r.metaLLMScore = some 51 ∧
      r.scoringMethod = some "llm_averaged" ∧ r.score = 35 ∧
      roundHalfAwayFromZero (((20 : ℚ) + 51) / 2) = 36 := by
  obtain ⟨r, hr, hlocal, hscore, hmethod, hmeta⟩ :=
    analyzePageData_llm_shape llmState51 emptyPageData "src" providerScore51
      { content := str "Score: 51", tokensUsed := 7, model := "m" } rfl rfl rfl rfl
  have hE : extractScoreFromLLMResponse (str "Score: 51") = 51 := by decide
  rw [hE] at hscore hmethod hmeta
  norm_num at hscore hmethod hmeta
  refine ⟨r, hr, ?_, ?_, ?_, ?_, ?_⟩
  · rw [hlocal, emptyContent_overall]
  · rw [hmeta]
  · rw [hmethod]
  · rw [hscore, emptyContent_overall]; decide
  · norm_num [roundHalfAwayFromZero]

/-- C1 amended: when the provider call succeeds and score extraction
succeeds, `finalScore = (localScore.overall + extractedScore) / 2` with Go's
truncating integer division (not round-half-away), the scoring method being
`llm_averaged` in llm mode and `hybrid_averaged` in hybrid mode; when
extraction fails in llm mode the final score stays `localScore.overall` with
method `llm_no_score_fallback`. -/
theorem averaged_scoring_methods :
    (∀ (a : AnalyzerState) (pd : PageData) (src : String) (p : Provider)
        (resp : LLMResponse),
      a.mode = "llm" → a.initError = none → a.provider = some p →
      p.analyze pd.content Prompt.geo = Except.ok resp →
      0 < extractScoreFromLLMResponse resp.content →
      ∃ r, analyzePageData a pd src = Except.ok r ∧
        r.score = goDivInt
          ((analyzeContent newLocalScorerWeights pd.content pd).overall +
            extractScoreFromLLMResponse resp.content) 2 ∧
        r.scoringMethod = some "llm_averaged") ∧
    (∀ (a : AnalyzerState) (pd : PageData) (src : String) (p : Provider)
        (resp : LLMResponse),
      a.mode = "hybrid" → a.provider = some p →
      p.analyze pd.content
          (createHybridPrompt (analyzeContent newLocalScorerWeights pd.content pd)
            pd.content) = Except.ok resp →
      0 < extractScoreFromLLMResponse resp.content →
      ∃ r, analyzePageData a pd src = Except.ok r ∧
        r.score = goDivInt
          ((analyzeContent newLocalScorerWeights pd.content pd).overall +
            extractScoreFromLLMResponse resp.content) 2 ∧
        r.scoringMethod = some "hybrid_averaged") ∧
    (∀ (a : AnalyzerState) (pd : PageData) (src : String) (p : Provider)
        (resp : LLMResponse),
      a.mode = "llm" → a.initError = none → a.provider = some p →
      p.analyze pd.content Prompt.geo = Except.ok resp →
      extractScoreFromLLMResponse resp.content = 0 →
      ∃ r, analyzePageData a pd src = Except.ok r ∧
        r.score = (analyzeContent newLocalScorerWeights pd.content pd).overall ∧
        r.scoringMethod = some "llm_no_score_fallback") := by
  refine ⟨?_, ?_, ?_⟩
  · intro a pd src p resp hmode hinit hprov hcall hpos
    simp only [analyzePageData, hmode, hinit, hprov, hcall]
    simp only [show ("llm" = "local") = False by simp, if_false, if_pos rfl,
      reduceIte]
    rw [if_pos hpos]
    exact ⟨_, rfl, rfl, rfl⟩
  · intro a pd src p resp hmode hprov hcall hpos
    simp only [analyzePageData, hmode, hprov, hcall]
    simp only [reduceIte]
    rw [if_pos hpos]
    exact ⟨_, rfl, rfl, rfl⟩
  · intro a pd src p resp hmode hinit hprov hcall hzero
    simp only [analyzePageData, hmode, hinit, hprov, hcall]
    simp only [reduceIte]
    rw [if_neg (by omega : ¬ 0 < extractScoreFromLLMResponse resp.content)]
    exact ⟨_, rfl, rfl, rfl⟩

/-- C1 witness: the amended llm-averaging claim at a concrete provider
returning "Score: 51" on the empty page. -/
theorem averaged_scoring_methods_witness :
    ∃ r, analyzePageData llmState51 emptyPageData "src" = Except.ok r ∧
      r.score = goDivInt
        ((analyzeContent newLocalScorerWeights emptyPageData.content
          emptyPageData).overall +
          extractScoreFromLLMResponse (str "Score: 51")) 2 ∧
      r.scoringMethod = some "llm_averaged" :=
  averaged_scoring_methods.1 llmState51 emptyPageData "src" providerScore51
    { content := str "Score: 51", tokensUsed := 7, model := "m" }
    rfl rfl rfl rfl (by decide)

/-- C5: in hybrid mode with a live provider whose call errors, the analysis
still succeeds, the score stays exactly the local overall, the method is
`local_only_fallback`, and the provider error is recorded in the metadata. -/
theorem hybrid_provider_error_fallback :
    ∀ (a : AnalyzerState) (pd : PageData) (src : String) (p : Provider)
      (e : String),
      a.mode = "hybrid" → a.provider = some p →
      p.analyze pd.content
        (createHybridPrompt (analyzeContent newLocalScorerWeights pd.content pd)
          pd.content) = Except.error e →
      ∃ r, analyzePageData a pd src = Except.ok r ∧
        r.score = (analyzeContent newLocalScorerWeights pd.content pd).overall ∧
        r.scoringMethod = some "local_only_fallback" ∧
        r.metaLLMError = some e := by
  intro a pd src p e hmode hprov hcall
  simp only [analyzePageData, hmode, hprov, hcall]
  simp only [reduceIte]
  exact ⟨_, rfl, rfl, rfl, rfl⟩

/-- C5 witness: the fallback at a concrete always-erroring provider. -/
theorem hybrid_provider_error_fallback_witness :
    ∃ r, analyzePageData hybridBoomState emptyPageData "src" = Except.ok r ∧
      r.score = (analyzeContent newLocalScorerWeights emptyPageData.content
        emptyPageData).overall ∧
      r.scoringMethod = some "local_only_fallback" ∧
      r.metaLLMError = some "boom" :=
  hybrid_provider_error_fallback hybridBoomState emptyPageData "src"
    providerBoom "boom" rfl rfl rfl

/-- C6: a requested `auto` (or unset) mode is resolved before scoring, to
hybrid exactly when the configured or a known provider has a syntactically
valid credential and to local otherwise; and in local mode the analysis
result never depends on the injected provider — it is never invoked. -/
theorem auto_resolution_and_local_never_calls_provider :
    (∀ (env : Env) (cfgMode cfgLLMProvider : String),
      (cfgMode = "auto" ∨ cfgMode = "") →
      newResolvedMode env cfgMode cfgLLMProvider =
        (if hasValidAPIKey env cfgLLMProvider ∨ hasValidAPIKey env "openai" ∨
            hasValidAPIKey env "claude" then "hybrid" else "local")) ∧
    (∀ (orig prov : String) (env : Env) (ie : Option String)
        (p₁ p₂ : Option Provider) (pd : PageData) (src : String),
      analyzePageData ⟨"local", orig, prov, env, ie, p₁⟩ pd src =
        analyzePageData ⟨"local", orig, prov, env, ie, p₂⟩ pd src) := by
  constructor
  · intro env cfgMode cfgLLMProvider hauto
    rw [newResolvedMode, if_pos hauto]
    simp only [determineOptimalMode, List.any_cons, List.any_nil,
      Bool.or_false]
    split_ifs <;> simp_all
  · intro orig prov env ie p₁ p₂ pd src
    simp only [analyzePageData, reduceIte]

/-- C6 witness: with no credentials in the environment, auto resolves to
local. -/
theorem auto_resolution_witness :
    newResolvedMode { claudeAPIKey := "", openaiAPIKey := "" } "auto" "claude" =
      (if hasValidAPIKey { claudeAPIKey := "", openaiAPIKey := "" } "claude" ∨
          hasValidAPIKey { claudeAPIKey := "", openaiAPIKey := "" } "openai" ∨
          hasValidAPIKey { claudeAPIKey := "", openaiAPIKey := "" } "claude"
        then "hybrid" else "local") :=
  auto_resolution_and_local_never_calls_provider.1
    { claudeAPIKey := "", openaiAPIKey := "" } "auto" "claude" (Or.inl rfl)

/-- C10: an extracted score of 0 is the extractor's no-match sentinel
("Score: 0" extracts to 0), and both branches test `0 < extractedScore`
before averaging: in llm mode the result keeps the local overall with method
`llm_no_score_fallback`; in hybrid mode it keeps the local overall and no
averaging method is recorded. -/
theorem zero_score_is_sentinel :
    extractScoreFromLLMResponse (str "Score: 0") = 0 ∧
    (∀ (a : AnalyzerState) (pd : PageData) (src : String) (p : Provider)
        (resp : LLMResponse),
      a.mode = "llm" → a.initError = none → a.provider = some p →
      p.analyze pd.content Prompt.geo = Except.ok resp →
      extractScoreFromLLMResponse resp.content = 0 →
      ∃ r, analyzePageData a pd src = Except.ok r ∧
        r.score = (analyzeContent newLocalScorerWeights pd.content pd).overall ∧
        r.scoringMethod = some "llm_no_score_fallback") ∧
    (∀ (a : AnalyzerState) (pd : PageData) (src : String) (p : Provider)
        (resp : LLMResponse),
      a.mode = "hybrid" → a.provider = some p →
      p.analyze pd.content
          (createHybridPrompt (analyzeContent newLocalScorerWeights pd.content pd)
            pd.content) = Except.ok resp →
      extractScoreFromLLMResponse resp.content = 0 →
      ∃ r, analyzePageData a pd src = Except.ok r ∧
        r.score = (analyzeContent newLocalScorerWeights pd.content pd).overall ∧
        r.scoringMethod = none ∧ r.metaLLMScore = none) := by
  refine ⟨by decide, ?_, ?_⟩
  · intro a pd src p resp hmode hinit hprov hcall hzero
    simp only [analyzePageData, hmode, hinit, hprov, hcall]
    simp only [reduceIte]
    rw [if_neg (by omega : ¬ 0 < extractScoreFromLLMResponse resp.content)]
    exact ⟨_, rfl, rfl, rfl⟩
  · intro a pd src p resp hmode hprov hcall hzero
    simp only [analyzePageData, hmode, hprov, hcall]
    simp only [reduceIte]
    rw [if_neg (by omega : ¬ 0 < extractScoreFromLLMResponse resp.content)]
    exact ⟨_, rfl, rfl, rfl, rfl⟩

/-- C10 witness: the llm branch at a concrete provider replying "Score: 0"
on the empty page. -/
theorem zero_score_is_sentinel_witness :
    ∃ r, analyzePageData llmState0 emptyPageData "src" = Except.ok r ∧
      r.score = (analyzeContent newLocalScorerWeights emptyPageData.content
        emptyPageData).overall ∧
      r.scoringMethod = some "llm_no_score_fallback" :=
  zero_score_is_sentinel.2.1 llmState0 emptyPageData "src" providerScore0
    { content := str "Score: 0", tokensUsed := 7, model := "m" }
    rfl rfl rfl rfl (by decide)

/-- A worker's write preserves the length of the results slice. -/
theorem bulkWrite_length (f : String → Except String AnalyzerResult)
    (urls : List String) (acc : List (Option BulkResult)) (i : ℕ) :
    (bulkWrite f urls acc i).length = acc.length := by
  unfold bulkWrite
  cases urls[i]? <;> simp

/-- Folding worker writes preserves the length. -/
theorem foldl_bulkWrite_length (f : String → Except String AnalyzerResult)
    (urls : List String) :
    ∀ (schedule : List ℕ) (acc : List (Option BulkResult)),
      (schedule.foldl (bulkWrite f urls) acc).length = acc.length := by
  intro schedule
  induction schedule with
  | nil => intro acc; rfl
  | cons j rest ih =>
    intro acc
    simp only [List.foldl_cons]
    rw [ih, bulkWrite_length]

/-- Each slot of the folded results holds its own worker's value once that
worker has been scheduled, independently of the rest of the schedule. -/
theorem foldl_bulkWrite_getElem (f : String → Except String AnalyzerResult)
    (urls : List String) :
    ∀ (schedule : List ℕ) (acc : List (Option BulkResult)),
      acc.length = urls.length →
      ∀ i : ℕ,
        (schedule.foldl (bulkWrite f urls) acc)[i]? =
          if i ∈ schedule ∧ i < urls.length then
            (urls[i]?).map (fun u => some (processOneURL f u))
          else acc[i]? := by
  intro schedule
  induction schedule with
  | nil => intro acc _ i; simp
  | cons j rest ih =>
    intro acc hacc i
    simp only [List.foldl_cons]
    rw [ih (bulkWrite f urls acc j) (by rw [bulkWrite_length, hacc])]
    by_cases hmem : i ∈ rest ∧ i < urls.length
    · rw [if_pos hmem, if_pos ⟨List.mem_cons_of_mem _ hmem.1, hmem.2⟩]
    · rw [if_neg hmem]
      by_cases hij : i = j
      · subst hij
        by_cases hlt : i < urls.length
        · obtain ⟨u, hu⟩ : ∃ u, urls[i]? = some u :=
            ⟨urls[i], List.getElem?_eq_getElem hlt⟩
          rw [if_pos ⟨List.mem_cons_self _ _, hlt⟩, hu]
          unfold bulkWrite
          rw [hu, List.getElem?_set_eq (by rw [hacc]; exact hlt)]
          rfl
        · rw [if_neg (fun h => hlt h.2)]
          unfold bulkWrite
          rw [show urls[i]? = none from List.getElem?_eq_none (by omega)]
      · rw [if_neg (fun h => by
          rcases List.mem_cons.mp h.1 with h' | h'
          · exact hij h'
          · exact hmem ⟨h', h.2⟩)]
        unfold bulkWrite
        cases urls[j]? with
        | none => rfl
        | some u => rw [List.getElem?_set_ne (fun h => hij h.symm)]

/-- C4: for every url list, concurrency limit and completion schedule that
runs every worker, the batch output has the input's length, slot `i` holds
exactly worker `i`'s result for input `i` (with exactly one of result/error
present and the matching identifier), and the output is independent of the
completion order — no item's failure alters another slot. -/
theorem processURLs_batch_contract :
    ∀ (analyzeURL : String → Except String AnalyzerResult) (concurrent : ℕ)
      (urls : List String) (schedule : List ℕ),
      (∀ i, i < urls.length → i ∈ schedule) →
      (processURLs analyzeURL concurrent urls schedule).length = urls.length ∧
      (∀ (i : ℕ) (u : String), urls[i]? = some u →
        (processURLs analyzeURL concurrent urls schedule)[i]? =
          some (some (processOneURL analyzeURL u))) ∧
      (∀ u : String, (processOneURL analyzeURL u).url = u ∧
        (((processOneURL analyzeURL u).result).isSome ∧
            (processOneURL analyzeURL u).error = none ∨
          (processOneURL analyzeURL u).result = none ∧
            ((processOneURL analyzeURL u).error).isSome)) ∧
      (∀ schedule₂ : List ℕ, (∀ i, i < urls.length → i ∈ schedule₂) →
        processURLs analyzeURL concurrent urls schedule =
          processURLs analyzeURL concurrent urls schedule₂) := by
  intro analyzeURL concurrent urls schedule hfull
  have hget : ∀ (s : List ℕ), (∀ i, i < urls.length → i ∈ s) → ∀ i : ℕ,
      (processURLs analyzeURL concurrent urls s)[i]? =
        (urls[i]?).map (fun u => some (processOneURL analyzeURL u)) := by
    intro s hs i
    unfold processURLs
    rw [foldl_bulkWrite_getElem analyzeURL urls s _ (List.length_replicate _ _) i]
    by_cases hlt : i < urls.length
    · rw [if_pos ⟨hs i hlt, hlt⟩]
    · rw [if_neg (fun h => hlt h.2),
        show urls[i]? = none from List.getElem?_eq_none (by omega),
        show (List.replicate urls.length (none : Option BulkResult))[i]? = none from
          List.getElem?_eq_none (by rw [List.length_replicate]; omega)]
      rfl
  refine ⟨?_, ?_, ?_, ?_⟩
  · unfold processURLs
    rw [foldl_bulkWrite_length, List.length_replicate]
  · intro i u hu
    rw [hget schedule hfull i, hu]
    rfl
  · intro u
    unfold processOneURL
    cases analyzeURL u with
    | ok r => exact ⟨rfl, Or.inl ⟨rfl, rfl⟩⟩
    | error e => exact ⟨rfl, Or.inr ⟨rfl, rfl⟩⟩
  · intro schedule₂ hfull₂
    apply List.ext_getElem?
    intro i
    rw [hget schedule hfull i, hget schedule₂ hfull₂ i]

/-- C4 witness: a two-url batch with an out-of-order schedule. -/
theorem processURLs_batch_contract_witness :
    (∀ i, i < (["a", "b"] : List String).length → i ∈ ([1, 0] : List ℕ)) ∧
    (processURLs (fun _ => Except.error "x") 1 ["a", "b"] [1, 0]).length = 2 :=
  ⟨by intro i h; simp at h ⊢; omega,
    (processURLs_batch_contract (fun _ => Except.error "x") 1 ["a", "b"] [1, 0]
      (by intro i h; simp at h ⊢; omega)).1⟩

end GeoChecker
